import Mathlib

/-!
Shallow embedding of the RustCxx header-only library
(`include/rustcxx.hpp` and `include/rustcxx/rustcxx.hpp`).

The library provides a tagged union (`rust::Enum`, a wrapper over
`std::variant`), a pattern dispatcher (`rust::match` via `std::visit` with
an `overloads` set), a `rust::Result<T, E>` type, a `rust::Option<T>` type,
and `ENUM_VARIANT*` macros generating payload record types.

Modelling choices:
- `std::variant<T1..Tn>` is embedded as a dependent pair: a discriminant
  `idx : Fin n` plus a payload of the alternative type family at `idx`.
  An alternative type `T_i` of the C++ type list corresponds to the index
  `i`; "the active alternative is `T`" corresponds to `idx = i`.
- Functions that throw (`get`, `unwrap`, `unwrap_err`) are embedded as
  total functions into `Except Failure _`, where `Failure` enumerates the
  distinguishable failure conditions of the error taxonomy (each one is a
  distinct `std::runtime_error` message / `std::bad_variant_access` in the
  C++ code).
- "`f` is never invoked" is settled with instrumented call counters that
  mirror the branch structure of the corresponding member function: the
  counter counts how many times the executed branch calls `f`.
-/

set_option autoImplicit false

namespace rust

/-- The distinguishable runtime failure conditions of the library
(error-taxonomy names; in the C++ source each is a distinct thrown
exception: `get` on an inactive alternative, `unwrap` on an Err Result,
`unwrap_err` on an Ok Result, `unwrap` on a None Option). -/
inductive Failure where
  | WrongAlternativeAccess
  | UnwrapOnErr
  | UnwrapOnOk
  | UnwrapOnNone
deriving DecidableEq

/-- Embedding of `rust::Enum<Types...>` (a wrapper around
`std::variant<Types...>`): a discriminant `idx` into the list of `n`
alternative types `α`, and the single live payload `val` of the active
alternative type `α idx`. -/
structure Enum (n : Nat) (α : Fin n → Type) where
  idx : Fin n
  val : α idx

/-- Embedding of the converting constructor `Enum(T&& t)`: constructing
from a value of the alternative type at position `i` sets the discriminant
to `i` and stores the value (`value_(std::forward<T>(t))`). -/
def Enum.ofAlt {n : Nat} {α : Fin n → Type} (i : Fin n) (v : α i) : Enum n α :=
  ⟨i, v⟩

/-- Embedding of `Enum::index()`: `value_.index()`, the position of the
currently held alternative. -/
def Enum.index {n : Nat} {α : Fin n → Type} (e : Enum n α) : Nat :=
  e.idx.val

/-- Embedding of `Enum::is<T>()`: `std::holds_alternative<T>(value_)`,
true iff the discriminant is the position of `T` in the type list. -/
def Enum.is {n : Nat} {α : Fin n → Type} (i : Fin n) (e : Enum n α) : Bool :=
  decide (e.idx = i)

/-- Embedding of `Enum::get<T>()`: returns the payload when `T` is the
active alternative and fails otherwise (`throw` in `include/rustcxx.hpp`,
`std::get` raising `std::bad_variant_access` in
`include/rustcxx/rustcxx.hpp`; both are the taxonomy's
`WrongAlternativeAccess`). -/
def Enum.get {n : Nat} {α : Fin n → Type} (i : Fin n) (e : Enum n α) :
    Except Failure (α i) :=
  if h : e.idx = i then Except.ok (h ▸ e.val)
  else Except.error Failure.WrongAlternativeAccess

/-- Embedding of `Enum::get_if<T>()`: `std::get_if` on the stored variant,
a present pointer to the payload when `T` is active and a null pointer
otherwise, embedded as `some` / `none`. -/
def Enum.get_if {n : Nat} {α : Fin n → Type} (i : Fin n) (e : Enum n α) :
    Option (α i) :=
  if h : e.idx = i then some (h ▸ e.val) else none

/-- Embedding of `Enum::operator==`: `value_ == other.value_` on
`std::variant`, which is false when the indices differ and otherwise
compares the two payloads of the common active alternative with that
alternative's `operator==` (supplied here as the family `beqA`). -/
def Enum.beq {n : Nat} {α : Fin n → Type} (beqA : ∀ i, α i → α i → Bool)
    (a b : Enum n α) : Bool :=
  if h : a.idx = b.idx then beqA b.idx (h ▸ a.val) b.val else false

/-- Embedding of `std::visit(overloads{ts...}, variant)` as used by
`rust::match`: the merged handler set `vis` has exactly one callable per
alternative (overload resolution keys the callable by its parameter type,
embedded as the index); `visit` invokes the callable of the active
alternative on the live payload. -/
def visit {n : Nat} {α : Fin n → Type} {β : Type}
    (vis : ∀ i : Fin n, α i → β) (e : Enum n α) : β :=
  vis e.idx e.val

/-- Embedding of `Enum::match(ts...)` / `rust::match(value_, ts...)`. -/
def Enum.dispatch {n : Nat} {α : Fin n → Type} {β : Type} (e : Enum n α)
    (hs : ∀ i : Fin n, α i → β) : β :=
  visit hs e

/-- Instrumentation of `Enum::match`: how many times the dispatch invokes
the handler for alternative `j`. `std::visit` invokes the selected
overload exactly once, on the active alternative, and no other overload. -/
def Enum.handlerCalls {n : Nat} {α : Fin n → Type} (e : Enum n α)
    (j : Fin n) : Nat :=
  if e.idx = j then 1 else 0

/-- Embedding of `rust::Result<T, E>`: a named two-alternative tagged
union over `std::variant<T, E>`, constructed only through the static
factories `Ok` and `Err`. -/
inductive Result (T : Type) (E : Type) where
  | Ok (value : T)
  | Err (error : E)
deriving DecidableEq

/-- Embedding of `Result::is_ok()`: `std::holds_alternative<T>(value_)`. -/
def Result.is_ok {T E : Type} : Result T E → Bool
  | .Ok _ => true
  | .Err _ => false

/-- Embedding of `Result::is_err()`: `std::holds_alternative<E>(value_)`. -/
def Result.is_err {T E : Type} : Result T E → Bool
  | .Ok _ => false
  | .Err _ => true

/-- Embedding of `Result::unwrap()`: throws ("Called unwrap() on an Err
Result", the taxonomy's `UnwrapOnErr`) when `is_err()`, otherwise returns
the Ok payload `std::get<T>(value_)`. -/
def Result.unwrap {T E : Type} : Result T E → Except Failure T
  | .Ok x => Except.ok x
  | .Err _ => Except.error Failure.UnwrapOnErr

/-- Embedding of `Result::unwrap_err()`: throws ("Called unwrap_err() on
an Ok Result", the taxonomy's `UnwrapOnOk`) when `is_ok()`, otherwise
returns the Err payload `std::get<E>(value_)`. -/
def Result.unwrap_err {T E : Type} : Result T E → Except Failure E
  | .Ok _ => Except.error Failure.UnwrapOnOk
  | .Err e => Except.ok e

/-- Embedding of `Result::unwrap_or(default_value)`:
`is_ok() ? std::get<T>(value_) : T(default_value)`; never throws. -/
def Result.unwrap_or {T E : Type} (r : Result T E) (d : T) : T :=
  match r with
  | .Ok x => x
  | .Err _ => d

/-- Embedding of `Result::map(f)`: `Ok(f(std::get<T>(value_)))` when
`is_ok()`, else `Err(std::get<E>(value_))` with the error passed through
unchanged. -/
def Result.map {T E U : Type} (r : Result T E) (f : T → U) : Result U E :=
  match r with
  | .Ok x => Result.Ok (f x)
  | .Err e => Result.Err e

/-- Instrumentation of `Result::map(f)`: how many times the executed
branch applies `f`. The Ok branch contains the single call site
`f(std::get<T>(value_))`; the Err branch contains no call to `f`. -/
def Result.mapCalls {T E : Type} : Result T E → Nat
  | .Ok _ => 1
  | .Err _ => 0

/-- Embedding of `Result::and_then(f)`: returns `f(std::get<T>(value_))`
directly when `is_ok()`, else rebuilds `Err` from the stored error. -/
def Result.and_then {T E U : Type} (r : Result T E) (f : T → Result U E) :
    Result U E :=
  match r with
  | .Ok x => f x
  | .Err e => Result.Err e

/-- Instrumentation of `Result::and_then(f)`: how many times the executed
branch invokes `f`. The Ok branch contains the single call site `f(...)`;
the Err branch contains none. -/
def Result.andThenCalls {T E : Type} : Result T E → Nat
  | .Ok _ => 1
  | .Err _ => 0

/-- Embedding of `rust::Option<T>`: a wrapper over
`std::optional<T>` / `nonstd::optional<T>`, either holding a value
(`Some`) or empty (`None`). -/
inductive Option (T : Type) where
  | Some (value : T)
  | None
deriving DecidableEq

/-- Embedding of the default constructor `Option() : value_(std::nullopt)`
(resp. `value_()` in `include/rustcxx.hpp`): the stored optional is empty. -/
def Option.defaultCtor {T : Type} : Option T :=
  Option.None

/-- Embedding of `Option::is_some()`: `value_.has_value()`. -/
def Option.is_some {T : Type} : Option T → Bool
  | .Some _ => true
  | .None => false

/-- Embedding of `Option::is_none()`: `!value_.has_value()`. -/
def Option.is_none {T : Type} : Option T → Bool
  | .Some _ => false
  | .None => true

/-- Embedding of `Option::unwrap()`: throws ("Called unwrap() on a None
Option", the taxonomy's `UnwrapOnNone`) when `is_none()`, otherwise
returns the stored value `*value_`. -/
def Option.unwrap {T : Type} : Option T → Except Failure T
  | .Some x => Except.ok x
  | .None => Except.error Failure.UnwrapOnNone

/-- Embedding of `Option::unwrap_or(default_value)`:
`is_some() ? *value_ : T(default_value)`; never throws. -/
def Option.unwrap_or {T : Type} (o : Option T) (d : T) : T :=
  match o with
  | .Some x => x
  | .None => d

/-- Embedding of the record shape generated by `ENUM_VARIANT2(name, type1,
field1, type2, field2)` in `include/rustcxx.hpp`: a struct with the two
declared fields and the positional value constructor. -/
structure Variant2 (T1 T2 : Type) where
  field1 : T1
  field2 : T2
deriving DecidableEq

/-- Embedding of the `operator==` generated by `ENUM_VARIANT2` (and by
`INTERNAL_ENUM_VARIANT_WITH_FIELDS` / `ENUM_VARIANT1`..`ENUM_VARIANT7`) in
`include/rustcxx.hpp`: `bool operator==(const name&) const { return
true; }` — it ignores both operands. -/
def Variant2.eqOp {T1 T2 : Type} (_a _b : Variant2 T1 T2) : Bool :=
  true

/-- Embedding of the equality the `include/rustcxx/rustcxx.hpp` revision
derives for `INTERNAL_ENUM_VARIANT_WITH_FIELDS` (a defaulted comparison
operator, whose implicitly declared defaulted `operator==` compares the
members in order with their own equality). -/
def Variant2.eqOpDefaulted {T1 T2 : Type} (beq1 : T1 → T1 → Bool)
    (beq2 : T2 → T2 → Bool) (a b : Variant2 T1 T2) : Bool :=
  beq1 a.field1 b.field1 && beq2 a.field2 b.field2

/-- Concrete two-alternative type list {Int, Text} from the end-to-end
scenarios, alternative 0 being the integer type and alternative 1 the
text type. -/
abbrev IntText : Fin 2 → Type :=
  fun i => if i.val = 0 then Int else String

/-- A value of the alternative at index 0 of `IntText`. -/
def iv (k : Int) : IntText 0 :=
  k

/-- A value of the alternative at index 1 of `IntText`. -/
def tv (s : String) : IntText 1 :=
  s

/-- Per-alternative equality for `IntText` (each alternative's own
`operator==`). -/
def intTextBeq : (i : Fin 2) → IntText i → IntText i → Bool
  | ⟨0, _⟩ => fun a b : Int => a == b
  | ⟨1, _⟩ => fun a b : String => a == b
  | ⟨n + 2, h⟩ => absurd h (by omega)

/-- A merged handler set for `IntText`: the integer handler returns its
argument, the text handler returns the text's length. -/
def intTextHandlers : (i : Fin 2) → IntText i → Int
  | ⟨0, _⟩ => fun v : Int => v
  | ⟨1, _⟩ => fun s : String => Int.ofNat s.length
  | ⟨n + 2, h⟩ => absurd h (by omega)

/-- A union over {Int, Text} currently holding the integer `5`. -/
def holdingInt : Enum 2 IntText :=
  Enum.ofAlt 0 (iv 5)

/-- A union over {Int, Text} currently holding a text. -/
def holdingText : Enum 2 IntText :=
  Enum.ofAlt 1 (tv ("x"))

/-- Claim C1: the claim demands that two payload records generated with at
least one field compare unequal when constructed with differing field
values; the `operator==` generated by `ENUM_VARIANT2` in
`include/rustcxx.hpp` instead returns `true` on two records whose fields
all differ, while the member-wise defaulted equality of the
`include/rustcxx/rustcxx.hpp` revision correctly reports them unequal. -/
theorem variant2_generated_eq_defect :
    Variant2.eqOp (Variant2.mk (1 : Int) (2 : Int)) (Variant2.mk 3 4) = true
    ∧ (Variant2.mk (1 : Int) (2 : Int)).field1 ≠
        (Variant2.mk (3 : Int) (4 : Int)).field1
    ∧ Variant2.eqOpDefaulted (fun a b : Int => a == b)
        (fun a b : Int => a == b)
        (Variant2.mk (1 : Int) (2 : Int)) (Variant2.mk 3 4) = false :=
  ⟨rfl, by decide, by decide⟩

/-- Claim C2: `Ok(x).map(f) = Ok(f(x))`; `Err(e).map(f) = Err(e)`
unchanged, and the Err branch of `Result::map` contains zero invocations
of `f`. -/
theorem result_map_spec : ∀ (T U E : Type) (f : T → U) (x : T) (e : E),
    (Result.Ok x : Result T E).map f = Result.Ok (f x)
    ∧ (Result.Err e : Result T E).map f = Result.Err e
    ∧ (Result.Err e : Result T E).mapCalls = 0 :=
  fun _ _ _ _ _ _ => ⟨rfl, rfl, rfl⟩

/-- Claim C3: `Ok(x).and_then(f) = f(x)` returned directly;
`Err(e).and_then(f)` is an Err carrying the same error `e`, and the Err
branch of `Result::and_then` contains zero invocations of `f`. -/
theorem result_and_then_spec :
    ∀ (T U E : Type) (f : T → Result U E) (x : T) (e : E),
    (Result.Ok x : Result T E).and_then f = f x
    ∧ (Result.Err e : Result T E).and_then f = Result.Err e
    ∧ (Result.Err e : Result T E).andThenCalls = 0 :=
  fun _ _ _ _ _ _ => ⟨rfl, rfl, rfl⟩

/-- Claim C4: `unwrap` returns the Ok payload and fails with `UnwrapOnErr`
exactly when the Result is Err; `unwrap_err` returns the Err payload and
fails with `UnwrapOnOk` exactly when the Result is Ok; `unwrap_or` never
fails, returning the Ok payload when Ok and the default when Err. -/
theorem result_accessor_spec :
    ∀ (T E : Type) (x : T) (e : E) (d : T) (r : Result T E),
    (Result.Ok x : Result T E).unwrap = Except.ok x
    ∧ (Result.Err e : Result T E).unwrap = Except.error Failure.UnwrapOnErr
    ∧ (Result.Err e : Result T E).unwrap_err = Except.ok e
    ∧ (Result.Ok x : Result T E).unwrap_err =
        Except.error Failure.UnwrapOnOk
    ∧ (Result.Ok x : Result T E).unwrap_or d = x
    ∧ (Result.Err e : Result T E).unwrap_or d = d
    ∧ (r.unwrap = Except.error Failure.UnwrapOnErr ↔ r.is_err = true)
    ∧ (r.unwrap_err = Except.error Failure.UnwrapOnOk ↔ r.is_ok = true) := by
  intro T E x e d r
  refine ⟨rfl, rfl, rfl, rfl, rfl, rfl, ?_, ?_⟩ <;>
    cases r <;>
      simp [Result.unwrap, Result.unwrap_err, Result.is_err, Result.is_ok]

/-- Claim C5: `get` at index `i` returns the stored payload when `i` is
the active alternative and fails with `WrongAlternativeAccess` when it is
not; `get_if` never fails, returning a present result to the payload when
`i` is active and an absent one when it is not. -/
theorem enum_get_spec : ∀ (n : Nat) (α : Fin n → Type) (i j : Fin n)
    (v : α i),
    ((Enum.ofAlt i v).get i = Except.ok v
      ∧ (Enum.ofAlt i v).get_if i = some v)
    ∧ (i ≠ j →
        (Enum.ofAlt i v).get j = Except.error Failure.WrongAlternativeAccess
        ∧ (Enum.ofAlt i v).get_if j = none) :=
  fun _ _ _ _ _ =>
    ⟨⟨dif_pos rfl, dif_pos rfl⟩, fun h => ⟨dif_neg h, dif_neg h⟩⟩

/-- Witness for C5: on the {Int, Text} union holding the integer `5`,
`get` at the text alternative fails with `WrongAlternativeAccess` and
`get_if` at the text alternative is absent. -/
theorem enum_get_spec_witness :
    holdingInt.get 1 = Except.error Failure.WrongAlternativeAccess
    ∧ holdingInt.get_if 1 = none :=
  (enum_get_spec 2 IntText 0 1 (iv 5)).2 (by decide)

/-- Claim C6: `Some(x).unwrap() = x`; `None().unwrap()` fails with
`UnwrapOnNone`; `unwrap_or` never fails, returning the Some payload when
present and the default when None. -/
theorem option_accessor_spec : ∀ (T : Type) (x d : T),
    (Option.Some x).unwrap = Except.ok x
    ∧ (Option.None : Option T).unwrap = Except.error Failure.UnwrapOnNone
    ∧ (Option.Some x).unwrap_or d = x
    ∧ (Option.None : Option T).unwrap_or d = d :=
  fun _ _ _ => ⟨rfl, rfl, rfl, rfl⟩

/-- Claim C7: constructing a union from a value `v` of the alternative at
position `i` yields `index() = i`, `is` at `i` true, and `get` at `i`
returning `v`. -/
theorem enum_construct_spec : ∀ (n : Nat) (α : Fin n → Type) (i : Fin n)
    (v : α i),
    (Enum.ofAlt i v).index = i.val
    ∧ (Enum.ofAlt i v).is i = true
    ∧ (Enum.ofAlt i v).get i = Except.ok v :=
  fun _ _ _ _ => ⟨rfl, by simp [Enum.is, Enum.ofAlt], dif_pos rfl⟩

/-- Claim C8: two unions with the same discriminant are equal exactly as
their active payloads compare equal, and two unions with differing
discriminants are never equal, regardless of the payload values. -/
theorem enum_beq_spec : ∀ (n : Nat) (α : Fin n → Type)
    (beqA : ∀ i, α i → α i → Bool) (i j : Fin n) (v w : α i) (u : α j),
    Enum.beq beqA (Enum.ofAlt i v) (Enum.ofAlt i w) = beqA i v w
    ∧ (i ≠ j → Enum.beq beqA (Enum.ofAlt i v) (Enum.ofAlt j u) = false) :=
  fun _ _ _ _ _ _ _ _ => ⟨dif_pos rfl, fun h => dif_neg h⟩

/-- Witness for C8: the {Int, Text} union holding the integer `5` and the
one holding a text have differing discriminants and compare unequal. -/
theorem enum_beq_spec_witness :
    Enum.beq intTextBeq holdingInt holdingText = false :=
  (enum_beq_spec 2 IntText intTextBeq 0 1 (iv 5) (iv 5) (tv ("x"))).2
    (by decide)

/-- Claim C9: dispatch over a handler set with exactly one callable per
alternative invokes the handler of the active alternative on the live
payload and returns its result; the active alternative's handler is
invoked exactly once and every other handler zero times. -/
theorem enum_dispatch_spec : ∀ (n : Nat) (α : Fin n → Type) (β : Type)
    (hs : ∀ i : Fin n, α i → β) (e : Enum n α),
    e.dispatch hs = hs e.idx e.val
    ∧ e.handlerCalls e.idx = 1
    ∧ (∀ j, j ≠ e.idx → e.handlerCalls j = 0) :=
  fun _ _ _ _ _ =>
    ⟨rfl, if_pos rfl, fun _ hj => if_neg (fun h => hj h.symm)⟩

/-- Witness for C9: the {Int, Text} union holding `5` dispatched to the
integer and text handlers returns the integer handler's result
`intTextHandlers 0 5 = 5`, and the text handler is invoked zero times. -/
theorem enum_dispatch_spec_witness :
    holdingInt.dispatch intTextHandlers = 5
    ∧ holdingInt.handlerCalls 1 = 0 :=
  ⟨rfl,
    (enum_dispatch_spec 2 IntText Int intTextHandlers holdingInt).2.2 1
      (by decide)⟩

/-- Claim C10: a default-constructed Option is None: `is_none()` is true,
`is_some()` is false, it equals `Option::None()`, its `unwrap()` fails
with `UnwrapOnNone`, and its `unwrap_or(d)` returns `d`. -/
theorem option_default_ctor_spec : ∀ (T : Type) (d : T),
    (Option.defaultCtor : Option T).is_none = true
    ∧ (Option.defaultCtor : Option T).is_some = false
    ∧ (Option.defaultCtor : Option T) = Option.None
    ∧ (Option.defaultCtor : Option T).unwrap =
        Except.error Failure.UnwrapOnNone
    ∧ (Option.defaultCtor : Option T).unwrap_or d = d :=
  fun _ _ => ⟨rfl, rfl, rfl, rfl, rfl⟩

end rust
